import Mathlib

/-!
Verification development for the fitbit_cheat repository (two Python
scripts: `fitbit_login.py`, the interactive OAuth authorizer, and
`fitbit_host.py`, the scheduled runner that refreshes tokens and logs
steps).

The scripts are shallowly embedded: each HTTP response the remote API
would give is supplied by an environment record, file contents are JSON
key-value lists, and a run produces an exit code together with a trace
of observable events (network calls with their authorization headers and
form bodies, file writes, printed lines).  Numeric arithmetic is modelled
in exact rationals; percent-decoding of query strings is modelled at the
byte level (exact for ASCII input, which covers every input considered
here).
-/

/-- A JSON scalar value as persisted in the two JSON files.  Python's
`None` serializes to JSON `null`, which is distinct from the key being
absent. -/
inductive JVal where
  | str (s : String)
  | num (n : Int)
  | null
deriving DecidableEq, Repr

/-- Look up a key in a JSON object (list of key-value pairs); first
occurrence wins, mirroring `dict` access after `json.load`. -/
def jget (j : List (String × JVal)) (k : String) : Option JVal :=
  (j.find? (fun p => p.1 == k)).map (fun p => p.2)

/-- Python `t.get(k)` for a string-valued field: `None` both when the key is
absent and when the stored value is JSON `null`. -/
def jgetStr (j : List (String × JVal)) (k : String) : Option String :=
  match jget j k with
  | some (JVal.str s) => some s
  | _ => none

/-- An optional Python string rendered as a JSON value: `None` becomes
`null`. -/
def optStrJ : Option String → JVal
  | some s => JVal.str s
  | none => JVal.null

/-- An optional Python integer rendered as a JSON value: `None` becomes
`null`. -/
def optIntJ : Option Int → JVal
  | some n => JVal.num n
  | none => JVal.null

/-- Floor of a rational, computed from its normalized representation
(the denominator is positive, so flooring division gives the floor). -/
def ratFloor (q : ℚ) : ℤ := Int.fdiv q.num q.den

/-- Python `round` on rationals: round half to even (banker's rounding),
as CPython's `round` does. -/
def pyRound (q : ℚ) : ℤ :=
  let f : ℤ := ratFloor q
  let r : ℚ := q - (f : ℚ)
  if r < 1/2 then f
  else if 1/2 < r then f + 1
  else if 2 ∣ f then f else f + 1

/-- Python `round(q, 3)`: round to three decimal places, half to even. -/
def round3 (q : ℚ) : ℚ := ((pyRound (q * 1000) : ℤ) : ℚ) / 1000

/-- The `Authorization` header attached to an HTTP call: either a Bearer
token (`self.access_token`, which can be Python `None`) or HTTP Basic
client credentials (modelled by the pair that gets base64-encoded). -/
inductive AuthHeader where
  | bearer (token : Option String)
  | basic (client_id client_secret : String)
deriving DecidableEq, Repr

/-- The form body of the activity-log POST built by
`FitbitHost.log_steps` (`src/fitbit_host.py` lines 94-102). -/
structure ActivityData where
  activityId : Nat
  startTime : String
  durationMillis : Nat
  date : String
  distance : ℚ
  steps : Nat
deriving DecidableEq, Repr

/-- Build the activity payload exactly as `log_steps` does:
`duration_minutes = max(steps // 100, 1)`, `durationMillis =
duration_minutes * 60 * 1000`, `distance = round(steps * 0.0008, 3)`
(0.0008 taken as the exact rational 8/10000). -/
def mkActivityData (steps : Nat) (date : String) (start_time : String) : ActivityData :=
  { activityId := 90013
    startTime := start_time
    durationMillis := (max (steps / 100) 1) * 60 * 1000
    date := date
    distance := round3 ((steps : ℚ) * (8 / 10000))
    steps := steps }

/-- Form body of a POST request, by endpoint. -/
inductive PostBody where
  | refreshForm (refresh_token : Option String)
  | activityForm (d : ActivityData)
  | exchangeForm (code redirect_uri client_id : String)
deriving DecidableEq, Repr

/-- Observable events of a run: network calls (with auth header and,
for POSTs, the form body), JSON file writes, and printed lines. -/
inductive Event where
  | netGet (url : String) (auth : AuthHeader)
  | netPost (url : String) (auth : AuthHeader) (body : PostBody)
  | fileWrite (name : String) (content : List (String × JVal))
  | printLine (s : String)
deriving DecidableEq, Repr

/-- The OAuth2 token endpoint URL. -/
def token_url : String := "https://api.fitbit.com/oauth2/token"

/-- The per-user API base URL. -/
def base_api : String := "https://api.fitbit.com/1/user/-"

/-- The probe URL built in `refresh_if_needed` for the current UTC date. -/
def probe_url (today : String) : String :=
  base_api ++ "/activities/date/" ++ today ++ ".json"

/-- The activity-log endpoint used by `log_steps`. -/
def activities_url : String := base_api ++ "/activities.json"

/-- True on network events (GET or POST). -/
def isNetCall : Event → Bool
  | Event.netGet _ _ => true
  | Event.netPost _ _ _ => true
  | _ => false

/-- True on POSTs to the token endpoint (refresh / exchange attempts). -/
def isTokenPost : Event → Bool
  | Event.netPost u _ _ => u == token_url
  | _ => false

/-- True on POSTs to the activity-log endpoint (submissions). -/
def isActivitiesPost : Event → Bool
  | Event.netPost u _ _ => u == activities_url
  | _ => false

/-- True on file-write events. -/
def isFileWrite : Event → Bool
  | Event.fileWrite _ _ => true
  | _ => false

/-- The auth headers of the activity-log POSTs of a trace, in order. -/
def submitAuths (tr : List Event) : List AuthHeader :=
  tr.filterMap fun e =>
    match e with
    | Event.netPost u a _ => if u == activities_url then some a else none
    | _ => none

/-! ### Host runner (`fitbit_host.py`) -/

/-- The parsed contents of `fitbit_config.json` as the runner reads it:
`client_id`/`client_secret` via mandatory access, `daily_steps` and
`start_time` via `.get` with defaults applied in `load_config`. -/
structure HostConfig where
  client_id : String
  client_secret : String
  daily_steps : Option Nat
  start_time : Option String
deriving DecidableEq, Repr

/-- The runner's configuration after `load_config` applied its defaults
(`daily_steps` defaults to 10000, `start_time` to "08:00"). -/
structure LoadedHostConfig where
  client_id : String
  client_secret : String
  daily_steps : Nat
  start_time : String
deriving DecidableEq, Repr

/-- The `FitbitHost.load_config` default application (file-missing handling
lives in `hostMain`). -/
def load_config (c : HostConfig) : LoadedHostConfig :=
  { client_id := c.client_id
    client_secret := c.client_secret
    daily_steps := c.daily_steps.getD 10000
    start_time := c.start_time.getD "08:00" }

/-- A response of the token endpoint to a refresh POST: HTTP status,
the JSON body's `access_token` (required on 200) and optional
`refresh_token`, and the raw text used in failure diagnostics. -/
structure RefreshResponse where
  status : Nat
  access_token : String
  refresh_token : Option String
  text : String
deriving DecidableEq, Repr

/-- A response to an activity-log POST: HTTP status, the body's
`activityLog.logId` when present, and the raw text used in failure
diagnostics. -/
structure SubmitResponse where
  status : Nat
  logId : Option Int
  text : String
deriving DecidableEq, Repr

/-- Environment of one runner invocation: the two input files (absent
or parsed contents), the probe's HTTP status, the responses the remote
API gives to the n-th refresh POST and the n-th submission POST of the
run, and the current UTC timestamp/date strings. -/
structure HostEnv where
  config : Option HostConfig
  tokensFile : Option (List (String × JVal))
  probeStatus : Nat
  refreshResp : Nat → RefreshResponse
  submitResp : Nat → SubmitResponse
  now : String
  today : String

/-- Mutable state of the `FitbitHost` object plus the token file on
disk, with counters indexing the next refresh/submission response. -/
structure HostState where
  access_token : Option String
  refresh_token : Option String
  file : Option (List (String × JVal))
  refreshCount : Nat
  submitCount : Nat
deriving DecidableEq, Repr

/-- Model of `FitbitHost.save_tokens`: overwrite the token file with exactly the
keys `access_token`, `refresh_token`, `updated_at` (a `None`
refresh_token is serialized as JSON `null`), update the in-memory
tokens, and print. -/
def save_tokens (st : HostState) (access_token : String) (refresh_token : Option String)
    (now : String) : HostState × List Event :=
  let out : List (String × JVal) :=
    [("access_token", JVal.str access_token),
     ("refresh_token", optStrJ refresh_token),
     ("updated_at", JVal.str now)]
  ({ st with
      file := some out
      access_token := some access_token
      refresh_token := refresh_token },
   [Event.fileWrite "fitbit_tokens.json" out,
    Event.printLine "Updated fitbit_tokens.json"])

/-- Model of `FitbitHost.refresh_access_token`: POST to the token endpoint with
Basic auth and the current refresh token; on non-200 print a diagnostic
and return `false`; on 200 persist via `save_tokens` and return
`true`. -/
def refresh_access_token (env : HostEnv) (cfg : LoadedHostConfig) (st : HostState) :
    Bool × HostState × List Event :=
  let r := env.refreshResp st.refreshCount
  let st1 := { st with refreshCount := st.refreshCount + 1 }
  let ev1 := [Event.netPost token_url (AuthHeader.basic cfg.client_id cfg.client_secret)
                (PostBody.refreshForm st.refresh_token)]
  if r.status ≠ 200 then
    (false, st1, ev1 ++ [Event.printLine ("Refresh failed: " ++ toString r.status ++ " " ++ r.text)])
  else
    let (st2, ev2) := save_tokens st1 r.access_token r.refresh_token env.now
    (true, st2, ev1 ++ ev2)

/-- Model of `FitbitHost.refresh_if_needed`: probe the activities endpoint for
today's date; a 401 triggers `refresh_access_token`, any other status
returns `true` with no refresh. -/
def refresh_if_needed (env : HostEnv) (cfg : LoadedHostConfig) (st : HostState) :
    Bool × HostState × List Event :=
  let ev1 := [Event.netGet (probe_url env.today) (AuthHeader.bearer st.access_token)]
  if env.probeStatus = 401 then
    let (b, st2, ev2) := refresh_access_token env cfg st
    (b, st2, ev1 ++ ev2)
  else
    (true, st, ev1)

/-- Shared tail of `log_steps` after the final response `r` is known:
non-(200, 201) prints a failure and returns `false`; otherwise print the
success line, print the `logId` when the body carries one, and return
`true`. -/
def log_steps_finish (r : SubmitResponse) (steps : Nat) (date : String)
    (st : HostState) (ev : List Event) : Bool × HostState × List Event :=
  if r.status ≠ 200 ∧ r.status ≠ 201 then
    (false, st, ev ++ [Event.printLine ("Log failed: " ++ toString r.status ++ " " ++ r.text)])
  else
    let ev2 := ev ++ [Event.printLine ("Logged steps: " ++ toString steps ++ " date: " ++ date)]
    match r.logId with
    | some lid => (true, st, ev2 ++ [Event.printLine ("logId: " ++ toString lid)])
    | none => (true, st, ev2)

/-- Model of `FitbitHost.log_steps`: fill defaults for the optional arguments,
build the payload, POST it with the current Bearer token; a 401 response
triggers exactly one inline `refresh_access_token` (aborting with
`false` if that fails) and exactly one re-POST with the refreshed Bearer
header; the final response then goes through `log_steps_finish`. -/
def log_steps (env : HostEnv) (cfg : LoadedHostConfig) (st : HostState)
    (steps? : Option Nat) (date? : Option String) (start_time? : Option String) :
    Bool × HostState × List Event :=
  let steps := steps?.getD cfg.daily_steps
  let date := date?.getD env.today
  let start_time := start_time?.getD cfg.start_time
  let data := mkActivityData steps date start_time
  let r := env.submitResp st.submitCount
  let st1 := { st with submitCount := st.submitCount + 1 }
  let ev1 := [Event.netPost activities_url (AuthHeader.bearer st.access_token)
                (PostBody.activityForm data)]
  if r.status = 401 then
    let ev2 := ev1 ++ [Event.printLine "Token expired, refreshing..."]
    let (ok, st2, evR) := refresh_access_token env cfg st1
    if ok then
      let r2 := env.submitResp st2.submitCount
      let st3 := { st2 with submitCount := st2.submitCount + 1 }
      let ev3 := ev2 ++ evR ++ [Event.netPost activities_url (AuthHeader.bearer st2.access_token)
                                  (PostBody.activityForm data)]
      log_steps_finish r2 steps date st3 ev3
    else
      (false, st2, ev2 ++ evR)
  else
    log_steps_finish r steps date st1 ev1

/-- Result of one runner invocation: the process exit code, the event
trace, and the token file on disk when the run ends. -/
structure HostResult where
  exitCode : Nat
  trace : List Event
  file : Option (List (String × JVal))
deriving DecidableEq, Repr

/-- The `FitbitHost` state right after `load_tokens`: the in-memory
tokens are read from the token file via `.get`, and the file on disk is
the loaded one. -/
def initialHostState (tfile : List (String × JVal)) : HostState :=
  { access_token := jgetStr tfile "access_token"
    refresh_token := jgetStr tfile "refresh_token"
    file := some tfile
    refreshCount := 0
    submitCount := 0 }

/-- Model of `fitbit_host.py`'s `main` (with the `FitbitHost` constructor
inlined): a missing config or token file raises `SystemExit(message)`
(exit code 1) before any network call; then probe/refresh, abort with
exit code 0 if that failed, else log steps and print `Done.` or
`Failed.` — the exit code is 0 on every path past the file checks. -/
def hostMain (env : HostEnv) : HostResult :=
  match env.config with
  | none =>
    { exitCode := 1
      trace := [Event.printLine "fitbit_config.json missing. Provide client_id and client_secret."]
      file := env.tokensFile }
  | some c =>
    match env.tokensFile with
    | none =>
      { exitCode := 1
        trace := [Event.printLine "fitbit_tokens.json missing. Upload tokens obtained from login script."]
        file := none }
    | some tfile =>
      let cfg := load_config c
      let st0 := initialHostState tfile
      let ev0 := [Event.printLine ("Running at " ++ env.now)]
      let (ok, st1, ev1) := refresh_if_needed env cfg st0
      if ok then
        let (ok2, st2, ev2) := log_steps env cfg st1 none none none
        if ok2 then
          { exitCode := 0, trace := ev0 ++ ev1 ++ ev2 ++ [Event.printLine "Done."], file := st2.file }
        else
          { exitCode := 0, trace := ev0 ++ ev1 ++ ev2 ++ [Event.printLine "Failed."], file := st2.file }
      else
        { exitCode := 0
          trace := ev0 ++ ev1 ++ [Event.printLine "Token refresh/check failed."]
          file := st1.file }

/-! ### Authorizer (`fitbit_login.py`) -/

/-- Value of an ASCII hex digit, accepting both cases. -/
def hexVal (c : Char) : Option Nat :=
  if '0' ≤ c ∧ c ≤ '9' then some (c.toNat - '0'.toNat)
  else if 'a' ≤ c ∧ c ≤ 'f' then some (c.toNat - 'a'.toNat + 10)
  else if 'A' ≤ c ∧ c ≤ 'F' then some (c.toNat - 'A'.toNat + 10)
  else none

/-- Percent-decoding as `urllib.parse.unquote` performs it, modelled at
the byte level: `%XX` with two hex digits becomes the character with
that code, an invalid escape is left literal.  Exact for ASCII data
(multi-byte UTF-8 escapes are not recombined). -/
def percentDecode : List Char → List Char
  | [] => []
  | '%' :: a :: b :: rest =>
    match hexVal a, hexVal b with
    | some ha, some hb => Char.ofNat (16 * ha + hb) :: percentDecode rest
    | _, _ => '%' :: percentDecode (a :: b :: rest)
  | c :: rest => c :: percentDecode rest

/-- Replacement of `'+'` by a space, as `parse_qsl` replaces it before unquoting. -/
def plusToSpace (c : Char) : Char := if c = '+' then ' ' else c

/-- Python `unquote(s.replace('+', ' '))`, the decoding `parse_qsl` applies to
each name and value. -/
def unquotePlus (s : String) : String :=
  String.mk (percentDecode (s.data.map plusToSpace))

/-- Split a character list on a separator, `str.split` style: the empty
list yields one empty group, and every separator occurrence starts a new
group. -/
def splitOnSep (sep : Char) : List Char → List (List Char)
  | [] => [[]]
  | c :: rest =>
    match splitOnSep sep rest with
    | [] => if c = sep then [[], [c]] else [[c]]
    | g :: gs => if c = sep then [] :: g :: gs else (c :: g) :: gs

/-- Split at the first occurrence of a separator (Python
`split(sep, 1)`); `none` when the separator does not occur. -/
def splitFirst (sep : Char) : List Char → Option (List Char × List Char)
  | [] => none
  | c :: rest =>
    if c = sep then some ([], rest)
    else
      match splitFirst sep rest with
      | none => none
      | some p => some (c :: p.1, p.2)

/-- Characters before the first occurrence of a separator (all of them
when the separator does not occur). -/
def takeUntilSep (sep : Char) : List Char → List Char
  | [] => []
  | c :: rest => if c = sep then [] else c :: takeUntilSep sep rest

/-- Python `urllib.parse.parse_qsl` with default arguments: split the query on
`&`, drop empty components, components without `=`, and components whose
raw value is empty, and decode the surviving names and values. -/
def parse_qsl (qs : String) : List (String × String) :=
  (splitOnSep '&' qs.data).filterMap fun nv =>
    if nv = [] then none
    else
      match splitFirst '=' nv with
      | none => none
      | some p =>
        if p.2 = [] then none
        else some (String.mk (percentDecode (p.1.map plusToSpace)),
                   String.mk (percentDecode (p.2.map plusToSpace)))

/-- The query part of a request path as `urlparse` extracts it: strip
the fragment at the first `#`, then take everything after the first
`?`. -/
def urlQuery (path : String) : String :=
  let noFrag := takeUntilSep '#' path.data
  match splitFirst '?' noFrag with
  | none => ""
  | some p => String.mk p.2

/-- Outcome of the callback handler on one GET request: response status,
the authorization code captured into `CallbackHandler.auth_code` (if
any), and the HTML page written back. -/
structure GetResult where
  status : Nat
  captured : Option String
  body : String
deriving DecidableEq, Repr

/-- Model of `CallbackHandler.do_GET`: parse the request path's query with
`parse_qs`; if a `code` key survives parsing, capture its first value
and answer 200 with the success page, else answer 400 with the failure
page and capture nothing. -/
def CallbackHandler.do_GET (path : String) : GetResult :=
  let qs := parse_qsl (urlQuery path)
  match qs.find? (fun p => p.1 == "code") with
  | some p =>
    { status := 200
      captured := some p.2
      body := "<html><body><h2>Authorized. You can close this window.</h2></body></html>" }
  | none =>
    { status := 400
      captured := none
      body := "<html><body><h2>No code found.</h2></body></html>" }

/-- The raw query string contains a parameter named `name` (decoded), in
the plain sense of the spec's words: some `&`-separated component's name
part — before the first `=`, or the whole component when there is no
`=` — decodes to `name`. -/
def hasParam (qs name : String) : Bool :=
  (splitOnSep '&' qs.data).any fun nv =>
    !(nv = []) &&
      (match splitFirst '=' nv with
       | none => String.mk (percentDecode (nv.map plusToSpace)) == name
       | some p => String.mk (percentDecode (p.1.map plusToSpace)) == name)

/-- The raw query string contains a parameter named `name` whose raw
value is non-empty — exactly the components `parse_qsl` keeps. -/
def hasNonEmptyParam (qs name : String) : Bool :=
  (splitOnSep '&' qs.data).any fun nv =>
    !(nv = []) &&
      (match splitFirst '=' nv with
       | none => false
       | some p => !(p.2 = []) && String.mk (percentDecode (p.1.map plusToSpace)) == name)

/-- The parsed contents of `fitbit_config.json` as the authorizer reads
it: mandatory `client_id`/`client_secret`, the rest via `.get` with
defaults applied in `loginMain`. -/
structure LoginConfig where
  client_id : String
  client_secret : String
  redirect_uri : Option String
  scope : Option String
  default_port : Option Nat
deriving DecidableEq, Repr

/-- A response of the token endpoint to the authorization-code
exchange: HTTP status and the JSON body fields `save_tokens` reads
(`access_token` mandatory, the rest via `.get`). -/
structure ExchangeResponse where
  status : Nat
  access_token : String
  refresh_token : Option String
  scope : Option String
  token_type : Option String
  expires_in : Option Int
deriving DecidableEq, Repr

/-- Environment of one authorizer invocation: the config file (absent or
parsed), the prior token file, the path of the single request the local
listener receives within its 5-minute window (if any), the exchange
response, and the current UTC timestamp. -/
structure LoginEnv where
  config : Option LoginConfig
  tokensFile : Option (List (String × JVal))
  request : Option String
  exchange : ExchangeResponse
  now : String

/-- The sample configuration `load_config` writes when
`fitbit_config.json` is absent. -/
def sampleConfig : List (String × JVal) :=
  [("client_id", JVal.str "YOUR_CLIENT_ID"),
   ("client_secret", JVal.str "YOUR_CLIENT_SECRET"),
   ("redirect_uri", JVal.str "http://127.0.0.1:8080/"),
   ("scope", JVal.str "activity"),
   ("default_port", JVal.num 8080)]

/-- The token record `fitbit_login.py`'s `save_tokens` writes: six keys,
with `None` values serialized as JSON `null`. -/
def login_save_tokens (d : ExchangeResponse) (now : String) : List (String × JVal) :=
  [("access_token", JVal.str d.access_token),
   ("refresh_token", optStrJ d.refresh_token),
   ("scope", optStrJ d.scope),
   ("token_type", optStrJ d.token_type),
   ("expires_in", optIntJ d.expires_in),
   ("updated_at", JVal.str now)]

/-- The authorization code the run obtains: the value captured by the
callback handler from the single received request, if any. -/
def loginCapturedCode (env : LoginEnv) : Option String :=
  env.request.bind fun p => (CallbackHandler.do_GET p).captured

/-- Result of one authorizer invocation: process exit code, event trace,
and the token file on disk when the run ends. -/
structure LoginResult where
  exitCode : Nat
  trace : List Event
  tokensFile : Option (List (String × JVal))
deriving DecidableEq, Repr

/-- Python `urlencode` as used to build the browser-facing authorization URL,
modelled as plain `name=value` joining (percent-encoding of special
characters in the values is not modelled; the URL is only printed). -/
def urlencodeNaive (ps : List (String × String)) : String :=
  String.intercalate "&" (ps.map fun p => p.1 ++ "=" ++ p.2)

/-- Model of `fitbit_login.py`'s `main` under the `__main__` wrapper.  A missing
config file writes the sample config, prints guidance and raises
`SystemExit(1)`; a run with no captured code prints and raises
`SystemExit(1)` (`SystemExit` passes through the wrapper's
`except Exception`); a non-2xx exchange raises `HTTPError` via
`raise_for_status`, which the wrapper catches and prints, leaving exit
code 0 (the error print abbreviates the exception to its status); on
success the six-key token record is written and the run exits 0. -/
def loginMain (env : LoginEnv) : LoginResult :=
  match env.config with
  | none =>
    { exitCode := 1
      trace := [Event.fileWrite "fitbit_config.json" sampleConfig,
                Event.printLine "Created sample fitbit_config.json. Please edit it with your app credentials and run again."]
      tokensFile := env.tokensFile }
  | some cfg =>
    let redirect := cfg.redirect_uri.getD "http://127.0.0.1:8080/"
    let scope := cfg.scope.getD "activity"
    let port := cfg.default_port.getD 8080
    let auth_url := "https://www.fitbit.com/oauth2/authorize?" ++
      urlencodeNaive [("client_id", cfg.client_id), ("response_type", "code"),
                      ("scope", scope), ("redirect_uri", redirect)]
    let ev0 := [Event.printLine "Open this URL in your browser and Allow the app:",
                Event.printLine auth_url,
                Event.printLine "Trying to open browser automatically...",
                Event.printLine ("Waiting for redirect on http://127.0.0.1:" ++ toString port ++ "/ ...")]
    match loginCapturedCode env with
    | none =>
      { exitCode := 1
        trace := ev0 ++ [Event.printLine "No code received. Make sure redirect uri matches and you allowed the app."]
        tokensFile := env.tokensFile }
    | some code =>
      let ev1 := ev0 ++ [Event.printLine "Got code, exchanging for token...",
                         Event.netPost token_url
                           (AuthHeader.basic cfg.client_id cfg.client_secret)
                           (PostBody.exchangeForm code redirect cfg.client_id)]
      if 400 ≤ env.exchange.status then
        { exitCode := 0
          trace := ev1 ++ [Event.printLine ("Error: " ++ toString env.exchange.status)]
          tokensFile := env.tokensFile }
      else
        let out := login_save_tokens env.exchange env.now
        { exitCode := 0
          trace := ev1 ++ [Event.fileWrite "fitbit_tokens.json" out,
                           Event.printLine "Saved tokens to fitbit_tokens.json",
                           Event.printLine "Done. You can upload fitbit_tokens.json to your host server."]
          tokensFile := some out }


/-! ### Helper lemmas -/

/-- A `takeWhile` over a trace that satisfies the predicate up to an
element that fails it keeps exactly the prefix. -/
theorem takeWhile_append_cons_eq {α} (p : α → Bool) (l1 : List α) (x : α) (rest : List α)
    (h1 : ∀ a ∈ l1, p a = true) (hx : p x = false) :
    (l1 ++ x :: rest).takeWhile p = l1 := by
  induction l1 with
  | nil => simp [List.takeWhile_cons, hx]
  | cons a l ih =>
    have ha : p a = true := h1 a (by simp)
    have ih2 := ih (fun b hb => h1 b (by simp [hb]))
    simp [List.takeWhile_cons, ha, ih2]

/-- A `takeWhile` keeps a trace all of whose elements satisfy the
predicate. -/
theorem takeWhile_eq_self_of_all {α} (p : α → Bool) (l : List α)
    (h : ∀ a ∈ l, p a = true) : l.takeWhile p = l := by
  induction l with
  | nil => rfl
  | cons a l ih =>
    have ha : p a = true := h a (by simp)
    have ih2 := ih (fun b hb => h b (by simp [hb]))
    simp [List.takeWhile_cons, ha, ih2]

/-- The trace of `log_steps_finish` extends the trace it is given. -/
theorem log_steps_finish_trace (r : SubmitResponse) (steps : Nat) (date : String)
    (st : HostState) (ev : List Event) :
    ∃ rest, (log_steps_finish r steps date st ev).2.2 = ev ++ rest := by
  unfold log_steps_finish
  split
  · exact ⟨_, rfl⟩
  · split
    · exact ⟨_, List.append_assoc _ _ _⟩
    · exact ⟨_, rfl⟩

/-- The trace of `log_steps` always starts with the submission POST of
the payload built from the effective arguments, sent under the Bearer
header of the access token held when `log_steps` starts. -/
theorem log_steps_trace_cons (env : HostEnv) (cfg : LoadedHostConfig) (st : HostState)
    (steps? : Option Nat) (date? : Option String) (start_time? : Option String) :
    ∃ rest, (log_steps env cfg st steps? date? start_time?).2.2
      = Event.netPost activities_url (AuthHeader.bearer st.access_token)
          (PostBody.activityForm (mkActivityData (steps?.getD cfg.daily_steps)
            (date?.getD env.today) (start_time?.getD cfg.start_time))) :: rest := by
  unfold log_steps
  by_cases h1 : (env.submitResp st.submitCount).status = 401
  · simp only [if_pos h1]
    rcases refresh_access_token env cfg
        { st with submitCount := st.submitCount + 1 } with ⟨ok, st2, evR⟩
    cases ok
    · exact ⟨_, rfl⟩
    · obtain ⟨r2, hfin⟩ := log_steps_finish_trace _ _ _ _ _
      exact ⟨_, hfin⟩
  · simp only [if_neg h1]
    obtain ⟨r2, hfin⟩ := log_steps_finish_trace _ _ _ _ _
    exact ⟨_, hfin⟩

/-! ### C5: derived duration and distance of the submitted entry -/

/-- C5: for every step count s ≥ 1, the ActivityLogEntry submitted by
`log_steps` (its trace's first event is the POST of exactly this
payload) has durationMillis = max(floor(s/100), 1) * 60 * 1000 and
distance = round(s * 0.0008, 3); in particular s = 10000 yields duration
100 minutes and distance 8. -/
theorem C5_payload_duration_distance (s : Nat) (_h1s : 1 ≤ s) (d t : String) :
    (mkActivityData s d t).durationMillis = (max (s / 100) 1) * 60 * 1000 ∧
    (mkActivityData s d t).distance = round3 ((s : ℚ) * (8 / 10000)) ∧
    (∀ env cfg st, ∃ rest, (log_steps env cfg st (some s) (some d) (some t)).2.2
        = Event.netPost activities_url (AuthHeader.bearer st.access_token)
            (PostBody.activityForm (mkActivityData s d t)) :: rest) ∧
    (mkActivityData 10000 d t).durationMillis = 100 * 60 * 1000 ∧
    (mkActivityData 10000 d t).distance = 8 := by
  refine ⟨rfl, rfl, ?_, rfl, ?_⟩
  · intro env cfg st
    simpa using log_steps_trace_cons env cfg st (some s) (some d) (some t)
  · show round3 ((10000 : ℚ) * (8 / 10000)) = 8
    with_unfolding_all rfl

/-- C5 witness: the theorem applied at s = 3 (and the example s = 10000). -/
theorem C5_witness :
    (mkActivityData 3 "2026-01-01" "08:00").durationMillis = 60000 ∧
    (mkActivityData 10000 "2026-01-01" "08:00").distance = 8 := by
  obtain ⟨h1, h2, h3, h4, h5⟩ :=
    C5_payload_duration_distance 3 (by decide) "2026-01-01" "08:00"
  exact ⟨h1.trans (by decide), h5⟩

/-! ### C1: what a successful refresh persists -/

/-- C1 (amended): on every successful refresh (HTTP 200), the runner
overwrites the credential record with a fresh three-key record:
access_token and updated_at are always rewritten, and refresh_token is
rewritten with the response's refresh_token when present and with JSON
null when the response omitted it — the prior persisted value is not
retained. -/
theorem C1_successful_refresh_rewrites_record (env : HostEnv) (cfg : LoadedHostConfig)
    (st : HostState) (h : (env.refreshResp st.refreshCount).status = 200) :
    (refresh_access_token env cfg st).1 = true ∧
    (refresh_access_token env cfg st).2.1.file
      = some [("access_token", JVal.str (env.refreshResp st.refreshCount).access_token),
              ("refresh_token", optStrJ (env.refreshResp st.refreshCount).refresh_token),
              ("updated_at", JVal.str env.now)] ∧
    Event.fileWrite "fitbit_tokens.json"
        [("access_token", JVal.str (env.refreshResp st.refreshCount).access_token),
         ("refresh_token", optStrJ (env.refreshResp st.refreshCount).refresh_token),
         ("updated_at", JVal.str env.now)] ∈ (refresh_access_token env cfg st).2.2 := by
  unfold refresh_access_token save_tokens
  simp [h]

/-- Environment for the C1 scenario: the refresh response is 200 but
carries no refresh_token. -/
def C1cexEnv : HostEnv :=
  { config := some { client_id := "cid", client_secret := "sec",
                     daily_steps := none, start_time := none }
    tokensFile := some [("access_token", JVal.str "A1"), ("refresh_token", JVal.str "R1"),
                        ("updated_at", JVal.str "T0")]
    probeStatus := 401
    refreshResp := fun _ => { status := 200, access_token := "A2",
                              refresh_token := none, text := "" }
    submitResp := fun _ => { status := 200, logId := none, text := "" }
    now := "T1"
    today := "2026-10-12" }

/-- Loaded configuration for the C1 scenario. -/
def C1cexCfg : LoadedHostConfig :=
  { client_id := "cid", client_secret := "sec", daily_steps := 10000, start_time := "08:00" }

/-- Host state for the C1 scenario: the persisted record holds
refresh_token "R1". -/
def C1cexSt : HostState :=
  { access_token := some "A1"
    refresh_token := some "R1"
    file := some [("access_token", JVal.str "A1"), ("refresh_token", JVal.str "R1"),
                  ("updated_at", JVal.str "T0")]
    refreshCount := 0
    submitCount := 0 }

/-- C1 counterexample: a successful refresh (HTTP 200) whose response
omits refresh_token persists JSON null in the refresh_token field — it
does not retain the prior persisted value "R1". -/
theorem C1_refresh_token_not_retained_cex :
    (C1cexEnv.refreshResp 0).status = 200 ∧
    (C1cexEnv.refreshResp 0).refresh_token = none ∧
    (C1cexSt.file.bind (fun f => jget f "refresh_token")) = some (JVal.str "R1") ∧
    ((refresh_access_token C1cexEnv C1cexCfg C1cexSt).2.1.file.bind
        (fun f => jget f "refresh_token")) = some JVal.null ∧
    ((refresh_access_token C1cexEnv C1cexCfg C1cexSt).2.1.file.bind
        (fun f => jget f "refresh_token"))
      ≠ (C1cexSt.file.bind (fun f => jget f "refresh_token")) := by
  decide

/-- C1 witness: the amended theorem applied to the concrete 200
response without a refresh_token. -/
theorem C1_witness :
    (refresh_access_token C1cexEnv C1cexCfg C1cexSt).1 = true ∧
    (refresh_access_token C1cexEnv C1cexCfg C1cexSt).2.1.file
      = some [("access_token", JVal.str "A2"), ("refresh_token", JVal.null),
              ("updated_at", JVal.str "T1")] := by
  obtain ⟨h1, h2, h3⟩ :=
    C1_successful_refresh_rewrites_record C1cexEnv C1cexCfg C1cexSt (by decide)
  exact ⟨h1, h2⟩

/-! ### C10: shape of every runner credential-record write -/

/-- The exact key list `FitbitHost.save_tokens` persists. -/
def tokenKeys : List String := ["access_token", "refresh_token", "updated_at"]

/-- Every file write in a `refresh_access_token` trace is the token file
with exactly the three runner keys. -/
theorem refresh_fileWrites (env : HostEnv) (cfg : LoadedHostConfig) (st : HostState) :
    ∀ n c, Event.fileWrite n c ∈ (refresh_access_token env cfg st).2.2 →
      n = "fitbit_tokens.json" ∧ c.map Prod.fst = tokenKeys := by
  intro n c hc
  unfold refresh_access_token save_tokens at hc
  by_cases hs : (env.refreshResp st.refreshCount).status = 200
  · simp [hs] at hc
    obtain ⟨h1, h2⟩ := hc
    subst h2
    exact ⟨h1, rfl⟩
  · simp [hs] at hc

/-- The tail `log_steps_finish` never writes a file: its file writes are those of
the trace it extends. -/
theorem log_steps_finish_fileWrites (r : SubmitResponse) (steps : Nat) (date : String)
    (st : HostState) (ev : List Event) :
    ∀ n c, Event.fileWrite n c ∈ (log_steps_finish r steps date st ev).2.2 →
      Event.fileWrite n c ∈ ev := by
  intro n c hc
  unfold log_steps_finish at hc
  by_cases h1 : r.status ≠ 200 ∧ r.status ≠ 201
  · simp [h1] at hc
    simpa using hc
  · simp [h1] at hc
    rcases hl : r.logId with _ | lid
    · rw [hl] at hc
      simp at hc
      simpa using hc
    · rw [hl] at hc
      simp at hc
      simpa using hc

/-- Every file write in a `log_steps` trace is the token file with
exactly the three runner keys. -/
theorem log_steps_fileWrites (env : HostEnv) (cfg : LoadedHostConfig) (st : HostState)
    (steps? : Option Nat) (date? : Option String) (start_time? : Option String) :
    ∀ n c, Event.fileWrite n c ∈ (log_steps env cfg st steps? date? start_time?).2.2 →
      n = "fitbit_tokens.json" ∧ c.map Prod.fst = tokenKeys := by
  intro n c hc
  unfold log_steps at hc
  by_cases h1 : (env.submitResp st.submitCount).status = 401
  · simp only [if_pos h1] at hc
    rcases hR : refresh_access_token env cfg
        { st with submitCount := st.submitCount + 1 } with ⟨ok, st2, evR⟩
    rw [hR] at hc
    have hRW := refresh_fileWrites env cfg { st with submitCount := st.submitCount + 1 }
    rw [hR] at hRW
    cases ok
    · simp at hc
      exact hRW n c (by simpa using hc)
    · have hc2 := log_steps_finish_fileWrites _ _ _ _ _ n c hc
      simp at hc2
      exact hRW n c (by simpa using hc2)
  · simp only [if_neg h1] at hc
    have hc2 := log_steps_finish_fileWrites _ _ _ _ _ n c hc
    simp at hc2

/-- Every file write in a `refresh_if_needed` trace is the token file
with exactly the three runner keys. -/
theorem refresh_if_needed_fileWrites (env : HostEnv) (cfg : LoadedHostConfig) (st : HostState) :
    ∀ n c, Event.fileWrite n c ∈ (refresh_if_needed env cfg st).2.2 →
      n = "fitbit_tokens.json" ∧ c.map Prod.fst = tokenKeys := by
  intro n c hc
  unfold refresh_if_needed at hc
  by_cases hp : env.probeStatus = 401
  · simp only [if_pos hp] at hc
    rcases hR : refresh_access_token env cfg st with ⟨b, st2, ev2⟩
    rw [hR] at hc
    have hRW := refresh_fileWrites env cfg st
    rw [hR] at hRW
    simp at hc
    exact hRW n c (by simpa using hc)
  · simp [hp] at hc

/-- The run `hostMain` unfolded past the file checks, branch by branch, in terms
of the results of `refresh_if_needed` and `log_steps`. -/
theorem hostMain_decomp (env : HostEnv) (c : HostConfig) (t : List (String × JVal))
    (hc : env.config = some c) (ht : env.tokensFile = some t) :
    (∀ st1 ev1, refresh_if_needed env (load_config c) (initialHostState t) = (false, st1, ev1) →
      hostMain env = { exitCode := 0
                       trace := Event.printLine ("Running at " ++ env.now)
                         :: (ev1 ++ [Event.printLine "Token refresh/check failed."])
                       file := st1.file }) ∧
    (∀ st1 ev1 ok2 st2 ev2,
      refresh_if_needed env (load_config c) (initialHostState t) = (true, st1, ev1) →
      log_steps env (load_config c) st1 none none none = (ok2, st2, ev2) →
      hostMain env = { exitCode := 0
                       trace := Event.printLine ("Running at " ++ env.now)
                         :: (ev1 ++ ev2 ++ [Event.printLine (if ok2 then "Done." else "Failed.")])
                       file := st2.file }) := by
  constructor
  · intro st1 ev1 hRIN
    unfold hostMain
    simp [hc, ht, hRIN]
  · intro st1 ev1 ok2 st2 ev2 hRIN hLS
    unfold hostMain
    simp only [hc, ht, hRIN, hLS]
    cases ok2 <;> simp

/-- C10: every credential-record write the runner performs persists
exactly the keys access_token, refresh_token, updated_at (so the scope,
token_type and expires_in keys that the authorizer's `save_tokens`
writes disappear from the record on the first successful refresh). -/
theorem C10_runner_writes_exactly_three_keys (env : HostEnv) :
    (∀ n c, Event.fileWrite n c ∈ (hostMain env).trace →
        n = "fitbit_tokens.json" ∧ c.map Prod.fst = tokenKeys) ∧
    (∀ d now', (login_save_tokens d now').map Prod.fst
        = ["access_token", "refresh_token", "scope", "token_type", "expires_in", "updated_at"]) := by
  refine ⟨?_, fun d now' => rfl⟩
  intro n c hc
  rcases hcfg : env.config with _ | cfgf
  · unfold hostMain at hc
    simp [hcfg] at hc
  · rcases htf : env.tokensFile with _ | tf
    · unfold hostMain at hc
      simp [hcfg, htf] at hc
    · obtain ⟨hdec1, hdec2⟩ := hostMain_decomp env cfgf tf hcfg htf
      rcases hRIN : refresh_if_needed env (load_config cfgf) (initialHostState tf)
        with ⟨ok, st1, ev1⟩
      have hRW := refresh_if_needed_fileWrites env (load_config cfgf) (initialHostState tf)
      rw [hRIN] at hRW
      cases ok
      · rw [hdec1 st1 ev1 hRIN] at hc
        simp at hc
        exact hRW n c (by simpa using hc)
      · rcases hLS : log_steps env (load_config cfgf) st1 none none none with ⟨ok2, st2, ev2⟩
        have hLW := log_steps_fileWrites env (load_config cfgf) st1 none none none
        rw [hLS] at hLW
        rw [hdec2 st1 ev1 ok2 st2 ev2 hRIN hLS] at hc
        simp at hc
        rcases hc with hc | hc
        · exact hRW n c (by simpa using hc)
        · exact hLW n c (by simpa using hc)

/-- Environment for the C10 witness: a run whose probe fails with 401
and whose refresh succeeds, so that a credential-record write occurs. -/
def C10wEnv : HostEnv :=
  { config := some { client_id := "cid", client_secret := "sec",
                     daily_steps := none, start_time := none }
    tokensFile := some [("access_token", JVal.str "A1"), ("refresh_token", JVal.str "R1"),
                        ("scope", JVal.str "activity"), ("token_type", JVal.str "Bearer"),
                        ("expires_in", JVal.num 28800), ("updated_at", JVal.str "T0")]
    probeStatus := 401
    refreshResp := fun _ => { status := 200, access_token := "A2",
                              refresh_token := some "R2", text := "" }
    submitResp := fun _ => { status := 201, logId := some 5, text := "" }
    now := "T1"
    today := "2026-10-12" }

/-- C10 witness: the theorem applied to the write the C10 environment's
run performs, and to a concrete authorizer token record. -/
theorem C10_witness :
    ("fitbit_tokens.json" : String) = "fitbit_tokens.json" ∧
    ([("access_token", JVal.str "A2"), ("refresh_token", JVal.str "R2"),
      ("updated_at", JVal.str "T1")] : List (String × JVal)).map Prod.fst = tokenKeys := by
  exact (C10_runner_writes_exactly_three_keys C10wEnv).1 _ _ (by decide)

/-! ### C4: the probe gates the pre-submission refresh -/

/-- A `refresh_access_token` call reports success exactly on a 200 refresh
response. -/
theorem refresh_result_iff (env : HostEnv) (cfg : LoadedHostConfig) (st : HostState) :
    (refresh_access_token env cfg st).1 = true ↔ (env.refreshResp st.refreshCount).status = 200 := by
  unfold refresh_access_token save_tokens
  by_cases hr : (env.refreshResp st.refreshCount).status = 200 <;> simp [hr]

/-- A `refresh_access_token` call on a 200 response: success, tokens replaced,
record written, one token-endpoint POST. -/
theorem refresh_access_token_eq_200 (env : HostEnv) (cfg : LoadedHostConfig) (st : HostState)
    (hr : (env.refreshResp st.refreshCount).status = 200) :
    refresh_access_token env cfg st
      = (true,
         { access_token := some (env.refreshResp st.refreshCount).access_token
           refresh_token := (env.refreshResp st.refreshCount).refresh_token
           file := some [("access_token", JVal.str (env.refreshResp st.refreshCount).access_token),
                         ("refresh_token", optStrJ (env.refreshResp st.refreshCount).refresh_token),
                         ("updated_at", JVal.str env.now)]
           refreshCount := st.refreshCount + 1
           submitCount := st.submitCount },
         [Event.netPost token_url (AuthHeader.basic cfg.client_id cfg.client_secret)
            (PostBody.refreshForm st.refresh_token),
          Event.fileWrite "fitbit_tokens.json"
            [("access_token", JVal.str (env.refreshResp st.refreshCount).access_token),
             ("refresh_token", optStrJ (env.refreshResp st.refreshCount).refresh_token),
             ("updated_at", JVal.str env.now)],
          Event.printLine "Updated fitbit_tokens.json"]) := by
  unfold refresh_access_token save_tokens
  simp [hr]

/-- A `refresh_access_token` call on a non-200 response: failure, state kept
(besides the response counter), one token-endpoint POST, diagnostic
printed, nothing written. -/
theorem refresh_access_token_eq_fail (env : HostEnv) (cfg : LoadedHostConfig) (st : HostState)
    (hr : (env.refreshResp st.refreshCount).status ≠ 200) :
    refresh_access_token env cfg st
      = (false, { st with refreshCount := st.refreshCount + 1 },
         [Event.netPost token_url (AuthHeader.basic cfg.client_id cfg.client_secret)
            (PostBody.refreshForm st.refresh_token),
          Event.printLine ("Refresh failed: " ++ toString (env.refreshResp st.refreshCount).status
            ++ " " ++ (env.refreshResp st.refreshCount).text)]) := by
  unfold refresh_access_token
  simp [hr]

/-- The probe `refresh_if_needed` by probe status: a 401 probe hands over to
`refresh_access_token` after the probe GET; any other status returns
success with the probe GET as its only event. -/
theorem refresh_if_needed_decomp (env : HostEnv) (cfg : LoadedHostConfig) (st : HostState) :
    (env.probeStatus = 401 →
      refresh_if_needed env cfg st
        = ((refresh_access_token env cfg st).1, (refresh_access_token env cfg st).2.1,
           Event.netGet (probe_url env.today) (AuthHeader.bearer st.access_token)
             :: (refresh_access_token env cfg st).2.2)) ∧
    (env.probeStatus ≠ 401 →
      refresh_if_needed env cfg st
        = (true, st, [Event.netGet (probe_url env.today) (AuthHeader.bearer st.access_token)])) := by
  constructor <;> intro hp <;> unfold refresh_if_needed <;> simp [hp]

/-- C4: in a full runner invocation, the part of the trace before the
first submission POST contains exactly one token-endpoint POST when the
probe answered 401 and none otherwise; a non-401 probe moreover makes
`refresh_if_needed` report the token as valid with no refresh at all. -/
theorem C4_probe_gates_refresh (env : HostEnv) (c : HostConfig) (t : List (String × JVal))
    (hc : env.config = some c) (ht : env.tokensFile = some t) :
    ((hostMain env).trace.takeWhile (fun e => !(isActivitiesPost e))).countP isTokenPost
      = (if env.probeStatus = 401 then 1 else 0) ∧
    (env.probeStatus ≠ 401 →
      (refresh_if_needed env (load_config c) (initialHostState t)).1 = true ∧
      (refresh_if_needed env (load_config c) (initialHostState t)).2.2.countP isTokenPost = 0) := by
  obtain ⟨hdec1, hdec2⟩ := hostMain_decomp env c t hc ht
  obtain ⟨hrin1, hrin2⟩ := refresh_if_needed_decomp env (load_config c) (initialHostState t)
  constructor
  · by_cases hp : env.probeStatus = 401
    · have hRIN := hrin1 hp
      by_cases hr : (env.refreshResp (initialHostState t).refreshCount).status = 200
      · rw [refresh_access_token_eq_200 env (load_config c) (initialHostState t) hr] at hRIN
        rcases hLS : log_steps env (load_config c) _ none none none with ⟨ok2, st2, ev2⟩
        obtain ⟨rest, hrest⟩ := log_steps_trace_cons env (load_config c) _ none none none
        rw [hLS] at hrest
        subst hrest
        rw [hdec2 _ _ ok2 st2 _ hRIN hLS]
        simp [hp, List.takeWhile_cons, List.countP_cons, isActivitiesPost, isTokenPost,
              token_url, activities_url, base_api]
      · rw [refresh_access_token_eq_fail env (load_config c) (initialHostState t) hr] at hRIN
        rw [hdec1 _ _ hRIN]
        simp [hp, List.takeWhile_cons, List.countP_cons, isActivitiesPost, isTokenPost,
              token_url, activities_url, base_api]
    · have hRIN := hrin2 hp
      rcases hLS : log_steps env (load_config c) (initialHostState t)
          none none none with ⟨ok2, st2, ev2⟩
      obtain ⟨rest, hrest⟩ := log_steps_trace_cons env (load_config c)
        (initialHostState t) none none none
      rw [hLS] at hrest
      subst hrest
      rw [hdec2 _ _ ok2 st2 _ hRIN hLS]
      simp [hp, List.takeWhile_cons, List.countP_cons, isActivitiesPost, isTokenPost,
            token_url, activities_url, base_api]
  · intro hp
    rw [hrin2 hp]
    simp [List.countP_cons, isTokenPost]

/-- Config record for the C4 witness. -/
def C4wCfg : HostConfig :=
  { client_id := "cid", client_secret := "sec", daily_steps := none, start_time := none }

/-- Token file for the C4 witness. -/
def C4wTok : List (String × JVal) :=
  [("access_token", JVal.str "A1"), ("refresh_token", JVal.str "R1"),
   ("updated_at", JVal.str "T0")]

/-- Environment for the C4 witness: probe 401, successful refresh. -/
def C4wEnv : HostEnv :=
  { config := some C4wCfg
    tokensFile := some C4wTok
    probeStatus := 401
    refreshResp := fun _ => { status := 200, access_token := "A2",
                              refresh_token := some "R2", text := "" }
    submitResp := fun _ => { status := 200, logId := none, text := "" }
    now := "T1"
    today := "2026-10-12" }

/-- C4 witness: the theorem applied to the concrete 401-probe run. -/
theorem C4_witness :
    ((hostMain C4wEnv).trace.takeWhile (fun e => !(isActivitiesPost e))).countP isTokenPost
      = (if C4wEnv.probeStatus = 401 then 1 else 0) :=
  (C4_probe_gates_refresh C4wEnv C4wCfg C4wTok rfl rfl).1

/-! ### C3: the single refresh-and-resubmit on a 401 submission -/

/-- C3: when the first submission POST of `log_steps` answers 401, the
run performs exactly one refresh (one token-endpoint POST) followed by
exactly one resubmission carrying the refreshed Bearer token — exactly
two submission POSTs, the first under the old token, the second under
the refreshed one — and when that resubmission also answers 401 the call
reports failure with no further retry. -/
theorem C3_submit_401_retries_once (env : HostEnv) (cfg : LoadedHostConfig)
    (a rt : Option String) (f : Option (List (String × JVal))) (i j : Nat)
    (hs : (env.submitResp i).status = 401)
    (hr : (env.refreshResp j).status = 200)
    (hs2 : (env.submitResp (i + 1)).status = 401) :
    (log_steps env cfg ⟨a, rt, f, j, i⟩ none none none).1 = false ∧
    submitAuths (log_steps env cfg ⟨a, rt, f, j, i⟩ none none none).2.2
      = [AuthHeader.bearer a, AuthHeader.bearer (some (env.refreshResp j).access_token)] ∧
    (log_steps env cfg ⟨a, rt, f, j, i⟩ none none none).2.2.countP isTokenPost = 1 ∧
    (log_steps env cfg ⟨a, rt, f, j, i⟩ none none none).2.2.countP isActivitiesPost = 2 := by
  unfold log_steps
  simp [hs, hs2, refresh_access_token_eq_200 env cfg ⟨a, rt, f, j, i + 1⟩ hr,
        log_steps_finish, submitAuths, List.filterMap_cons, List.countP_cons,
        isTokenPost, isActivitiesPost, token_url, activities_url, base_api]

/-- Loaded configuration for the C3 witness. -/
def C3wCfg : LoadedHostConfig :=
  { client_id := "cid", client_secret := "sec", daily_steps := 10000, start_time := "08:00" }

/-- Environment for the C3 witness: every submission answers 401, the
refresh succeeds with access token "A2". -/
def C3wEnv : HostEnv :=
  { config := some { client_id := "cid", client_secret := "sec",
                     daily_steps := none, start_time := none }
    tokensFile := some [("access_token", JVal.str "A1"), ("refresh_token", JVal.str "R1")]
    probeStatus := 200
    refreshResp := fun _ => { status := 200, access_token := "A2",
                              refresh_token := some "R2", text := "" }
    submitResp := fun _ => { status := 401, logId := none, text := "expired" }
    now := "T1"
    today := "2026-10-12" }

/-- C3 witness: the theorem applied to the concrete double-401 run. -/
theorem C3_witness :
    (log_steps C3wEnv C3wCfg ⟨some "A1", some "R1", none, 0, 0⟩ none none none).1 = false ∧
    submitAuths (log_steps C3wEnv C3wCfg ⟨some "A1", some "R1", none, 0, 0⟩ none none none).2.2
      = [AuthHeader.bearer (some "A1"), AuthHeader.bearer (some "A2")] := by
  obtain ⟨h1, h2, h3, h4⟩ := C3_submit_401_retries_once C3wEnv C3wCfg (some "A1") (some "R1")
    none 0 0 (by decide) (by decide) (by decide)
  exact ⟨h1, h2⟩

/-! ### C7: the happy-path run leaves the credential record untouched -/

/-- C7: with both files present, a probe answering 200 and a first
submission answering 201 with body activityLog.logId = 123, the run
exits 0, prints the line logId: 123 and the line Done., performs no file
write, and ends with the token file exactly as it was loaded. -/
theorem C7_happy_path (env : HostEnv) (c : HostConfig) (t : List (String × JVal))
    (hc : env.config = some c) (ht : env.tokensFile = some t)
    (hp : env.probeStatus = 200)
    (hs : (env.submitResp 0).status = 201)
    (hl : (env.submitResp 0).logId = some 123) :
    (hostMain env).exitCode = 0 ∧
    Event.printLine "logId: 123" ∈ (hostMain env).trace ∧
    Event.printLine "Done." ∈ (hostMain env).trace ∧
    (hostMain env).trace.countP isFileWrite = 0 ∧
    (hostMain env).file = some t := by
  obtain ⟨hdec1, hdec2⟩ := hostMain_decomp env c t hc ht
  obtain ⟨_, hrin2⟩ := refresh_if_needed_decomp env (load_config c) (initialHostState t)
  have hp' : env.probeStatus ≠ 401 := by rw [hp]; decide
  have hRIN := hrin2 hp'
  have hLS : log_steps env (load_config c) (initialHostState t) none none none
      = (true, { initialHostState t with submitCount := 1 },
         [Event.netPost activities_url (AuthHeader.bearer (initialHostState t).access_token)
            (PostBody.activityForm (mkActivityData (load_config c).daily_steps
              env.today (load_config c).start_time)),
          Event.printLine ("Logged steps: " ++ toString (load_config c).daily_steps
            ++ " date: " ++ env.today),
          Event.printLine ("logId: " ++ toString (123 : Int))]) := by
    unfold log_steps log_steps_finish
    simp [initialHostState, hs, hl]
  rw [hdec2 _ _ true _ _ hRIN hLS]
  refine ⟨rfl, ?_, ?_, ?_, ?_⟩
  · simp [show ("logId: " ++ toString (123 : Int)) = "logId: 123" from rfl]
  · simp
  · simp [List.countP_cons, isFileWrite]
  · simp [initialHostState]

/-- Config record for the C7 witness. -/
def C7wCfg : HostConfig :=
  { client_id := "cid", client_secret := "sec", daily_steps := none, start_time := none }

/-- Token file for the C7 witness. -/
def C7wTok : List (String × JVal) :=
  [("access_token", JVal.str "A1"), ("refresh_token", JVal.str "R1"),
   ("updated_at", JVal.str "T0")]

/-- Environment for the C7 witness: probe 200, submission 201 with
logId 123. -/
def C7wEnv : HostEnv :=
  { config := some C7wCfg
    tokensFile := some C7wTok
    probeStatus := 200
    refreshResp := fun _ => { status := 200, access_token := "A2",
                              refresh_token := some "R2", text := "" }
    submitResp := fun _ => { status := 201, logId := some 123, text := "" }
    now := "T1"
    today := "2026-10-12" }

/-- C7 witness: the theorem applied to the concrete happy-path run. -/
theorem C7_witness :
    (hostMain C7wEnv).exitCode = 0 ∧
    Event.printLine "logId: 123" ∈ (hostMain C7wEnv).trace ∧
    (hostMain C7wEnv).file = some C7wTok := by
  obtain ⟨h1, h2, h3, h4, h5⟩ :=
    C7_happy_path C7wEnv C7wCfg C7wTok rfl rfl rfl (by decide) (by decide)
  exact ⟨h1, h2, h5⟩

/-! ### C6: missing files stop the run before any network call -/

/-- C6: if the runner's config file or token file is absent, or the
authorizer's config file is absent, the process exits with code 1 and
its trace contains no network call at all. -/
theorem C6_missing_files_no_network (henv : HostEnv) (lenv : LoginEnv) :
    (henv.config = none →
      (hostMain henv).exitCode = 1 ∧ (hostMain henv).trace.countP isNetCall = 0) ∧
    (henv.tokensFile = none →
      (hostMain henv).exitCode = 1 ∧ (hostMain henv).trace.countP isNetCall = 0) ∧
    (lenv.config = none →
      (loginMain lenv).exitCode = 1 ∧ (loginMain lenv).trace.countP isNetCall = 0) := by
  refine ⟨?_, ?_, ?_⟩
  · intro h
    unfold hostMain
    simp [h, List.countP_cons, isNetCall]
  · intro h
    unfold hostMain
    rcases hcf : henv.config with _ | c
    · simp [List.countP_cons, isNetCall]
    · simp [h, List.countP_cons, isNetCall]
  · intro h
    unfold loginMain
    simp [h, List.countP_cons, isNetCall]

/-- Host environment for the C6 witness: no config file. -/
def C6wHostEnv : HostEnv :=
  { config := none
    tokensFile := none
    probeStatus := 200
    refreshResp := fun _ => { status := 500, access_token := "", refresh_token := none, text := "" }
    submitResp := fun _ => { status := 500, logId := none, text := "" }
    now := "N"
    today := "D" }

/-- Login environment for the C6 witness: no config file. -/
def C6wLoginEnv : LoginEnv :=
  { config := none
    tokensFile := none
    request := none
    exchange := { status := 200, access_token := "A", refresh_token := none,
                  scope := none, token_type := none, expires_in := none }
    now := "N" }

/-- C6 witness: the theorem applied to runs with the files absent. -/
theorem C6_witness :
    ((hostMain C6wHostEnv).exitCode = 1 ∧ (hostMain C6wHostEnv).trace.countP isNetCall = 0) ∧
    ((loginMain C6wLoginEnv).exitCode = 1 ∧ (loginMain C6wLoginEnv).trace.countP isNetCall = 0) :=
  ⟨(C6_missing_files_no_network C6wHostEnv C6wLoginEnv).1 rfl,
   (C6_missing_files_no_network C6wHostEnv C6wLoginEnv).2.2 rfl⟩

/-! ### C2: process exit codes -/

/-- C2 (amended): both scripts exit 1 on a missing configuration or
credential file, and the authorizer exits 1 when no code is captured;
but once the runner's files are present its exit code is 0 on every
path — including an unrecoverable refresh failure — and once the
authorizer has a captured code its exit code is 0 even when the token
exchange fails (the HTTPError is caught and printed). -/
theorem C2_exit_codes (henv : HostEnv) (lenv : LoginEnv) :
    (henv.config = none → (hostMain henv).exitCode = 1) ∧
    (henv.tokensFile = none → (hostMain henv).exitCode = 1) ∧
    (henv.config ≠ none → henv.tokensFile ≠ none → (hostMain henv).exitCode = 0) ∧
    (lenv.config = none → (loginMain lenv).exitCode = 1) ∧
    (lenv.config ≠ none → loginCapturedCode lenv = none → (loginMain lenv).exitCode = 1) ∧
    (lenv.config ≠ none → loginCapturedCode lenv ≠ none → (loginMain lenv).exitCode = 0) := by
  refine ⟨?_, ?_, ?_, ?_, ?_, ?_⟩
  · intro h
    unfold hostMain
    simp [h]
  · intro h
    unfold hostMain
    rcases hcf : henv.config with _ | c
    · simp
    · simp [h]
  · intro h1 h2
    rcases hcf : henv.config with _ | c
    · exact absurd hcf h1
    rcases htf : henv.tokensFile with _ | t
    · exact absurd htf h2
    obtain ⟨hdec1, hdec2⟩ := hostMain_decomp henv c t hcf htf
    rcases hRIN : refresh_if_needed henv (load_config c) (initialHostState t) with ⟨ok, st1, ev1⟩
    cases ok
    · rw [hdec1 _ _ hRIN]
    · rcases hLS : log_steps henv (load_config c) st1 none none none with ⟨ok2, st2, ev2⟩
      rw [hdec2 _ _ ok2 st2 ev2 hRIN hLS]
  · intro h
    unfold loginMain
    simp [h]
  · intro h1 h2
    rcases hcf : lenv.config with _ | c
    · exact absurd hcf h1
    unfold loginMain
    simp [hcf, h2]
  · intro h1 h2
    rcases hcf : lenv.config with _ | c
    · exact absurd hcf h1
    rcases hcode : loginCapturedCode lenv with _ | code
    · exact absurd hcode h2
    unfold loginMain
    rw [hcf]
    simp only [hcode]
    by_cases hex : 400 ≤ lenv.exchange.status <;> simp [hex]

/-- Environment for the C2 counterexample: files present, probe 401,
unrecoverable refresh failure (HTTP 500). -/
def C2cexEnv : HostEnv :=
  { config := some { client_id := "cid", client_secret := "sec",
                     daily_steps := none, start_time := none }
    tokensFile := some [("access_token", JVal.str "A1"), ("refresh_token", JVal.str "R1")]
    probeStatus := 401
    refreshResp := fun _ => { status := 500, access_token := "", refresh_token := none,
                              text := "server error" }
    submitResp := fun _ => { status := 200, logId := none, text := "" }
    now := "T"
    today := "D" }

/-- C2 counterexample: a run whose token refresh fails unrecoverably
(the failure is reported in the output) still exits with code 0, not
the non-zero code the claim requires. -/
theorem C2_refresh_failure_exits_zero_cex :
    C2cexEnv.probeStatus = 401 ∧
    (C2cexEnv.refreshResp 0).status = 500 ∧
    Event.printLine "Token refresh/check failed." ∈ (hostMain C2cexEnv).trace ∧
    (hostMain C2cexEnv).exitCode = 0 := by
  decide

/-- Host environment for the C2 witness: missing config file. -/
def C2wHostEnv : HostEnv :=
  { config := none
    tokensFile := none
    probeStatus := 200
    refreshResp := fun _ => { status := 500, access_token := "", refresh_token := none, text := "" }
    submitResp := fun _ => { status := 500, logId := none, text := "" }
    now := "N"
    today := "D" }

/-- Login environment for the C2 witness: a captured code but a failing
token exchange. -/
def C2wLoginEnv : LoginEnv :=
  { config := some { client_id := "cid", client_secret := "sec",
                     redirect_uri := none, scope := none, default_port := none }
    tokensFile := none
    request := some "/?code=OK"
    exchange := { status := 500, access_token := "", refresh_token := none,
                  scope := none, token_type := none, expires_in := none }
    now := "N" }

/-- C2 witness: the amended theorem applied to a missing-config run
(exit 1) and to a failed-exchange run (exit 0). -/
theorem C2_witness :
    (hostMain C2wHostEnv).exitCode = 1 ∧ (loginMain C2wLoginEnv).exitCode = 0 :=
  ⟨(C2_exit_codes C2wHostEnv C2wLoginEnv).1 rfl,
   (C2_exit_codes C2wHostEnv C2wLoginEnv).2.2.2.2.2 (by decide) (by decide)⟩

/-! ### C9: the missing-config path of the authorizer writes a sample -/

/-- C9: when the authorizer's config file is absent, the run writes the
sample configuration (with the placeholder client_id/client_secret,
redirect_uri http 127.0.0.1 port 8080, scope activity, default_port
8080) and then exits with code 1 — the error path modifies the
filesystem. -/
theorem C9_missing_config_writes_sample (lenv : LoginEnv) (h : lenv.config = none) :
    (loginMain lenv).exitCode = 1 ∧
    (loginMain lenv).trace
      = [Event.fileWrite "fitbit_config.json" sampleConfig,
         Event.printLine "Created sample fitbit_config.json. Please edit it with your app credentials and run again."] ∧
    jget sampleConfig "client_id" = some (JVal.str "YOUR_CLIENT_ID") ∧
    jget sampleConfig "client_secret" = some (JVal.str "YOUR_CLIENT_SECRET") ∧
    jget sampleConfig "redirect_uri" = some (JVal.str "http://127.0.0.1:8080/") ∧
    jget sampleConfig "scope" = some (JVal.str "activity") ∧
    jget sampleConfig "default_port" = some (JVal.num 8080) := by
  refine ⟨?_, ?_, by decide, by decide, by decide, by decide, by decide⟩
  · unfold loginMain
    simp [h]
  · unfold loginMain
    simp [h]

/-- Login environment for the C9 witness: no config file. -/
def C9wEnv : LoginEnv :=
  { config := none
    tokensFile := none
    request := none
    exchange := { status := 200, access_token := "A", refresh_token := none,
                  scope := none, token_type := none, expires_in := none }
    now := "N" }

/-- C9 witness: the theorem applied to the concrete missing-config run. -/
theorem C9_witness :
    (loginMain C9wEnv).exitCode = 1 ∧
    (loginMain C9wEnv).trace
      = [Event.fileWrite "fitbit_config.json" sampleConfig,
         Event.printLine "Created sample fitbit_config.json. Please edit it with your app credentials and run again."] := by
  obtain ⟨h1, h2, h3⟩ := C9_missing_config_writes_sample C9wEnv rfl
  exact ⟨h1, h2⟩

/-! ### C8: classification of callback requests -/

/-- A `find?` for a key over a `filterMap` succeeds exactly when some
source element passes a predicate that mirrors the filter. -/
theorem find_filterMap_any {α : Type} (f : α → Option (String × String)) (name : String)
    (pred : α → Bool)
    (hrel : ∀ a, pred a = (match f a with
                           | none => false
                           | some q => q.1 == name)) (l : List α) :
    ((l.filterMap f).find? (fun p => p.1 == name)).isSome = l.any pred := by
  induction l with
  | nil => rfl
  | cons a l ih =>
    rcases hf : f a with _ | p
    · rw [List.filterMap_cons_none hf, List.any_cons, hrel a, hf]
      simpa using ih
    · rw [List.filterMap_cons_some hf, List.any_cons, hrel a, hf]
      by_cases hn : (p.1 == name) = true
      · rw [@List.find?_cons_of_pos _ (fun q => q.1 == name) p (List.filterMap f l) hn]
        simp [hn]
      · simp only [Bool.not_eq_true] at hn
        rw [@List.find?_cons_of_neg _ (fun q => q.1 == name) p (List.filterMap f l)
              (by simp [hn])]
        simp only [hn, Bool.false_or]
        exact ih

/-- Parsing: `parse_qs` of a query string yields an entry for `name` exactly when
the raw query contains a parameter of that (decoded) name with a
non-empty raw value. -/
theorem find_code_iff (qs name : String) :
    ((parse_qsl qs).find? (fun p => p.1 == name)).isSome = hasNonEmptyParam qs name := by
  unfold parse_qsl hasNonEmptyParam
  apply find_filterMap_any
  intro nv
  by_cases h0 : nv = ([] : List Char)
  · simp [h0]
  · rcases hsp : splitFirst '=' nv with _ | p
    · simp [h0, hsp]
    · by_cases hv : p.2 = ([] : List Char)
      · simp [h0, hsp, hv]
      · simp [h0, hsp, hv]

/-- C8 (amended): the callback handler answers 200 and captures the
first `code` value exactly when the request's query string contains a
`code` parameter with a non-empty raw value (the form `parse_qs`
keeps); otherwise — including a `code` parameter with a blank value,
which `parse_qs` drops — it answers 400 and captures nothing. -/
theorem C8_callback_classifies (path : String) :
    (hasNonEmptyParam (urlQuery path) "code" = true →
      (CallbackHandler.do_GET path).status = 200 ∧
      (CallbackHandler.do_GET path).captured
        = ((parse_qsl (urlQuery path)).find? (fun p => p.1 == "code")).map Prod.snd ∧
      (CallbackHandler.do_GET path).captured ≠ none) ∧
    (hasNonEmptyParam (urlQuery path) "code" = false →
      (CallbackHandler.do_GET path).status = 400 ∧
      (CallbackHandler.do_GET path).captured = none) := by
  have key := find_code_iff (urlQuery path) "code"
  constructor
  · intro h
    rw [h] at key
    rcases hf : (parse_qsl (urlQuery path)).find? (fun p => p.1 == "code") with _ | p
    · rw [hf] at key
      simp at key
    · refine ⟨?_, ?_, ?_⟩ <;> simp [CallbackHandler.do_GET, hf]
  · intro h
    rw [h] at key
    rcases hf : (parse_qsl (urlQuery path)).find? (fun p => p.1 == "code") with _ | p
    · constructor <;> simp [CallbackHandler.do_GET, hf]
    · rw [hf] at key
      simp at key

/-- C8 counterexample: the request `/?code=` has a query string that
does contain a `code` parameter (with a blank value), yet the handler
answers 400 and captures no code, because `parse_qs` drops blank
values. -/
theorem C8_blank_code_cex :
    hasParam (urlQuery "/?code=") "code" = true ∧
    (CallbackHandler.do_GET "/?code=").status = 400 ∧
    (CallbackHandler.do_GET "/?code=").captured = none := by
  decide

/-- C8 witness: the amended theorem applied to a request carrying a
non-empty code and to a request carrying none. -/
theorem C8_witness :
    hasNonEmptyParam (urlQuery "/?code=abc&x=1") "code" = true ∧
    ((CallbackHandler.do_GET "/?code=abc&x=1").status = 200 ∧
     (CallbackHandler.do_GET "/?code=abc&x=1").captured ≠ none) ∧
    hasNonEmptyParam (urlQuery "/?state=z") "code" = false ∧
    ((CallbackHandler.do_GET "/?state=z").status = 400 ∧
     (CallbackHandler.do_GET "/?state=z").captured = none) := by
  obtain ⟨hpos, _⟩ := C8_callback_classifies "/?code=abc&x=1"
  obtain ⟨h1, h2, h3⟩ := hpos (by decide)
  obtain ⟨_, hneg⟩ := C8_callback_classifies "/?state=z"
  obtain ⟨h4, h5⟩ := hneg (by decide)
  exact ⟨by decide, ⟨h1, h3⟩, by decide, h4, h5⟩
